import Mathlib

/-!
Verification of the ESPCaster Cast V2 client core against its specification.

The definitions below are a shallow embedding of
`components/chromecast_controller/chromecast_controller.cpp` /
`chromecast_controller.h` and
`components/chromecast_discovery/chromecast_discovery.cpp` /
`chromecast_discovery.h`.

Modelling conventions:
- machine integers are `Nat` (all relevant quantities are non-negative and far
  from overflow: frame lengths are checked against 2048, heap sizes against
  small thresholds);
- C `float`/`double` values are modelled as `ℚ` (the clamping and field
  extraction the claims mention are exact on the values involved);
- fallible environment actions (TLS reads/writes, `malloc`, `cJSON_Parse`)
  are passed in as explicit outcome parameters;
- a C string pointer is modelled as its content together with its identity
  (whether the pointer IS one of the controller's static `constexpr`
  namespace constants), because `handle_incoming_message` compares some
  namespaces with `==` on `const char*`, i.e. by address.
-/

namespace ESPCaster

/-- `ChromecastController::ConnectionState` (chromecast_controller.h). -/
inductive ConnectionState
  | DISCONNECTED
  | CONNECTING
  | CONNECTED
  | ERROR_STATE
deriving DecidableEq, Repr

/-- The three static `constexpr const char*` namespace constants of
`ChromecastController` (chromecast_controller.h). -/
inductive StaticNs
  | connection
  | heartbeat
  | receiver
deriving DecidableEq, Repr

/-- The string contents of `NAMESPACE_CONNECTION` / `NAMESPACE_HEARTBEAT` /
`NAMESPACE_RECEIVER`. -/
def nsString : StaticNs → String
  | .connection => "urn:x-cast:com.google.cast.tp.connection"
  | .heartbeat => "urn:x-cast:com.google.cast.tp.heartbeat"
  | .receiver => "urn:x-cast:com.google.cast.receiver"

/-- A `const char*` value: its character content plus its pointer identity
with respect to the static namespace constants.  A string freshly
heap-allocated at runtime (e.g. by `protobuf-c`'s `unpack`) has
`static = none`: it can never be the same pointer as a static constant. -/
structure CStr where
  content : String
  static : Option StaticNs
deriving DecidableEq, Repr

/-- `strcmp(a, <static constant s>) == 0`: content comparison. -/
def strcmpEq (a : CStr) (s : StaticNs) : Bool :=
  a.content == nsString s

/-- `a == <static constant s>` on `const char*`: pointer comparison — true
iff `a` is literally that static constant object. -/
def ptrEqNs (a : CStr) (s : StaticNs) : Bool :=
  a.static == some s

/-- cJSON value tree (arrays are not needed by any payload the claims
mention; objects keep their fields in insertion order as cJSON does). -/
inductive JVal
  | jnull
  | jbool (b : Bool)
  | jnum (q : ℚ)
  | jstr (s : String)
  | jobj (fields : List (String × JVal))

/-- cJSON's case-insensitive key comparison (`case_insensitive_strcmp`). -/
def eqCaseInsensitive (a b : String) : Bool :=
  a.data.map Char.toLower == b.data.map Char.toLower

/-- `cJSON_GetObjectItem`: case-insensitive lookup of the first matching
field; returns NULL (`none`) when the target is not an object or the key
is absent. -/
def getObjectItem : JVal → String → Option JVal
  | .jobj fields, key =>
      (fields.find? fun f => eqCaseInsensitive f.1 key).map Prod.snd
  | _, _ => none

/-- `ChromecastController::VolumeInfo` (chromecast_controller.h). -/
structure VolumeInfo where
  level : ℚ
  muted : Bool
deriving DecidableEq, Repr

/-- A JSON payload string as received or built: its raw text together with
the outcome `cJSON_Parse` has on it (`none` = parse failure). -/
structure JDoc where
  text : String
  parsed : Option JVal

/-- `ChromecastController::safe_json_parse`: checks free-heap headroom
against `min_free_heap`, rejects payloads longer than 4096 bytes, then
hands the text to `cJSON_Parse`. -/
def safe_json_parse (free_heap : Nat) (payload : JDoc) (min_free_heap : Nat) :
    Option JVal :=
  if free_heap < min_free_heap then none
  else if 4096 < payload.text.length then none
  else payload.parsed

/-- `ChromecastController::process_receiver_message`: parse the payload,
and when its `type` is the string `RECEIVER_STATUS` and a
`status.volume` object is present, extract `VolumeInfo` (missing or
mistyped `level`/`muted` default to `0.0`/`false`) and fire the volume
callback.  The returned value is the `VolumeInfo` handed to the volume
callback (`none` = callback not invoked). -/
def process_receiver_message (free_heap : Nat) (payload : JDoc) :
    Option VolumeInfo :=
  match safe_json_parse free_heap payload 8192 with
  | none => none
  | some json =>
    match getObjectItem json "type" with
    | some (.jstr t) =>
      if t == "RECEIVER_STATUS" then
        match getObjectItem json "status" with
        | some status =>
          match getObjectItem status "volume" with
          | some volume_obj =>
            let level : ℚ :=
              match getObjectItem volume_obj "level" with
              | some (.jnum q) => q
              | _ => 0
            let muted : Bool :=
              match getObjectItem volume_obj "muted" with
              | some (.jbool b) => b
              | _ => false
            some ⟨level, muted⟩
          | none => none
        | none => none
      else none
    | _ => none

/-- A deserialized `CastMessage` as `handle_incoming_message` sees it:
the `namespace_` and `payload_utf8` pointers may be NULL (`none`).
Other wire fields (source/destination/protocol version) are not read by
any code the claims concern. -/
structure CastMessage where
  namespace_ : Option CStr
  payload_utf8 : Option JDoc

/- ------------------------------------------------------------------ -/
/- Receive loop (`ChromecastController::receive_task`)                 -/
/- ------------------------------------------------------------------ -/

/-- Outcome of the second `esp_tls_conn_read` (payload bytes) and of
protobuf unpacking, for one loop iteration that got past the length
checks: either the payload read was short / failed, or it completed and
`...cast_message__unpack` returned `none` (failure) or a message. -/
inductive PayloadOutcome
  | shortRead
  | read (unpacked : Option CastMessage)

/-- What the environment produces for one iteration of the receive loop:
either the 4-byte length read did not return exactly 4 bytes
(closed / error / short), or it returned the four header bytes followed
by the payload outcome. -/
inductive RecvOutcome
  | shortLenRead
  | header (b0 b1 b2 b3 : Fin 256) (payload : PayloadOutcome)

/-- `(buffer[0] << 24) | (buffer[1] << 16) | (buffer[2] << 8) | buffer[3]`:
the big-endian declared frame length. -/
def beLen (b0 b1 b2 b3 : Fin 256) : Nat :=
  (b0.val <<< 24) ||| (b1.val <<< 16) ||| (b2.val <<< 8) ||| b3.val

/-- `MAX_CONSECUTIVE_ERRORS` in `receive_task`. -/
def MAX_CONSECUTIVE_ERRORS : Nat := 5

/-- Result of one receive-loop iteration: the new consecutive-error
counter, whether the payload `esp_tls_conn_read` was issued at all, and
the message dispatched to `handle_incoming_message` on success. -/
structure StepResult where
  errors : Nat
  payloadReadAttempted : Bool
  handled : Option CastMessage

/-- One iteration of the `while` body of `receive_task`, mirroring the
source's check order: short length read → zero length → length > 2048 →
short payload read → unpack failure → success (counter reset to 0). -/
def recvStep (errors : Nat) (o : RecvOutcome) : StepResult :=
  match o with
  | .shortLenRead => ⟨errors + 1, false, none⟩
  | .header b0 b1 b2 b3 p =>
    let message_length := beLen b0 b1 b2 b3
    if message_length = 0 then ⟨errors + 1, false, none⟩
    else if 2048 < message_length then ⟨errors + 1, false, none⟩
    else
      match p with
      | .shortRead => ⟨errors + 1, true, none⟩
      | .read none => ⟨errors + 1, true, none⟩
      | .read (some m) => ⟨0, true, some m⟩

/-- Whether an iteration outcome is counted as an error by `receive_task`
(incomplete length read, zero or oversized declared length, incomplete
payload read, or unpack failure). -/
def isErrorOutcome (o : RecvOutcome) : Bool :=
  match o with
  | .shortLenRead => true
  | .header b0 b1 b2 b3 p =>
    let L := beLen b0 b1 b2 b3
    decide (L = 0) || decide (2048 < L) ||
      (match p with
       | .shortRead => true
       | .read none => true
       | .read (some _) => false)

/-- Status of the receive loop: still looping with a given consecutive
error count, or exited because the error budget was exhausted. -/
inductive LoopState
  | running (errors : Nat)
  | errored
deriving DecidableEq, Repr

/-- The `while (is_connected && consecutive_errors < MAX_CONSECUTIVE_ERRORS)`
loop of `receive_task`, run over a finite trace of environment outcomes,
with the session remaining connected throughout (disconnection from
another thread is a concurrency aspect outside this embedding). -/
def recvRun (errors : Nat) : List RecvOutcome → LoopState
  | [] =>
      if MAX_CONSECUTIVE_ERRORS ≤ errors then .errored else .running errors
  | o :: os =>
      if MAX_CONSECUTIVE_ERRORS ≤ errors then .errored
      else recvRun (recvStep errors o).errors os

/-- The consecutive-error counter after folding a trace through the loop
body. -/
def foldErrors (errors : Nat) (es : List RecvOutcome) : Nat :=
  es.foldl (fun e o => (recvStep e o).errors) errors

/-- The connection state after `receive_task` returns: the code sets
`ERROR_STATE` exactly when it exited with
`consecutive_errors >= MAX_CONSECUTIVE_ERRORS`. -/
def receive_task_final_state (s : ConnectionState) (es : List RecvOutcome) :
    ConnectionState :=
  match recvRun 0 es with
  | .errored => .ERROR_STATE
  | .running _ => s

/- ------------------------------------------------------------------ -/
/- Controller state, outbound send path, commands                      -/
/- ------------------------------------------------------------------ -/

/-- The mutable fields of `ChromecastController` that the claims concern.
Handles (`tls_handle`, `heartbeat_timer`, `receive_task_handle`) are
modelled by whether they are non-NULL. -/
structure CtrlState where
  tls_handle : Bool
  heartbeat_timer : Bool
  heartbeat_running : Bool
  receive_task_handle : Bool
  current_state : ConnectionState
  request_id_counter : Nat
  virtual_connection_established : Bool
deriving DecidableEq, Repr

/-- `ChromecastController::is_connected`. -/
def is_connected (s : CtrlState) : Bool :=
  s.current_state == .CONNECTED

/-- `ChromecastController::is_connection_healthy`: state is `CONNECTED`,
the TLS handle is valid, and the virtual connection is established. -/
def is_connection_healthy (s : CtrlState) : Bool :=
  s.current_state == .CONNECTED && s.tls_handle
    && s.virtual_connection_established

/-- Environment outcomes for one `send_protobuf_message` call: whether the
`malloc` of the frame buffer succeeds and whether `esp_tls_conn_write`
writes the full frame. -/
structure SendEnv where
  mallocOk : Bool
  writeOk : Bool
deriving DecidableEq, Repr

/-- One length-prefixed frame handed to `esp_tls_conn_write` (payload kept
as its JSON value; serialization to protobuf bytes is injective on the
fields and not needed by any claim). -/
structure Frame where
  ns : String
  payload : JVal

/-- `ChromecastController::send_protobuf_message`: fails without writing
when the TLS handle is NULL or the buffer `malloc` fails; otherwise one
frame is written to the transport and the result reports whether the
write completed fully.  Returns (result, frame written, if any). -/
def send_protobuf_message (s : CtrlState) (env : SendEnv) (ns : String)
    (payload : JVal) : Bool × Option Frame :=
  if s.tls_handle = false then (false, none)
  else if env.mallocOk = false then (false, none)
  else (env.writeOk, some ⟨ns, payload⟩)

/-- `ChromecastController::create_json_message`: under 8192 bytes of free
heap returns the minimal `"{}"` payload without touching the request-id
counter; otherwise builds `{"type": ..., "requestId": ...}` plus the
fields of `additional_data`, post-incrementing the counter when
`request_id` is 0.  cJSON node allocations are modelled as succeeding
(the free-heap guard is the modelled memory aspect).  Returns the payload
and the updated counter. -/
def create_json_message (free_heap : Nat) (counter : Nat) (type : String)
    (request_id : Nat) (additional_data : Option (List (String × JVal))) :
    JVal × Nat :=
  if free_heap < 8192 then (.jobj [], counter)
  else
    let rid := if request_id = 0 then counter else request_id
    let counter' := if request_id = 0 then counter + 1 else counter
    let base : List (String × JVal) :=
      [("type", .jstr type), ("requestId", .jnum rid)]
    let fields :=
      match additional_data with
      | none => base
      | some extra => base ++ extra
    (.jobj fields, counter')

/-- Result of an outbound command: the boolean return value, the
controller state afterwards, and the frame written to the transport, if
any. -/
structure SendResult where
  ret : Bool
  state : CtrlState
  frame : Option Frame

/-- `std::max(0.0f, std::min(1.0f, level))`. -/
def clampLevel (level : ℚ) : ℚ :=
  max 0 (min 1 level)

/-- `ChromecastController::set_volume`: requires a connected session and
at least 8192 bytes of free heap (else returns false without writing),
clamps the level to [0, 1], builds the `SET_VOLUME` receiver-namespace
message carrying `{"volume": {"level": ..., "muted": ...}}`, and sends
it. -/
def set_volume (s : CtrlState) (free_heap : Nat) (env : SendEnv)
    (level : ℚ) (muted : Bool) : SendResult :=
  if is_connected s = false then ⟨false, s, none⟩
  else if free_heap < 8192 then ⟨false, s, none⟩
  else
    let level' := clampLevel level
    let volume : JVal := .jobj [("level", .jnum level'), ("muted", .jbool muted)]
    let message_data := [("volume", volume)]
    let built := create_json_message free_heap s.request_id_counter
      "SET_VOLUME" 0 (some message_data)
    let s' := { s with request_id_counter := built.2 }
    let sent := send_protobuf_message s' env (nsString .receiver) built.1
    ⟨sent.1, s', sent.2⟩

/-- `ChromecastController::get_status`: requires a connected session,
builds the `GET_STATUS` message (note: no free-heap check of its own —
under low memory `create_json_message` falls back to `"{}"`), and sends
it on the receiver namespace. -/
def get_status (s : CtrlState) (free_heap : Nat) (env : SendEnv) :
    SendResult :=
  if is_connected s = false then ⟨false, s, none⟩
  else
    let built := create_json_message free_heap s.request_id_counter
      "GET_STATUS" 0 none
    let s' := { s with request_id_counter := built.2 }
    let sent := send_protobuf_message s' env (nsString .receiver) built.1
    ⟨sent.1, s', sent.2⟩

/-- `ChromecastController::heartbeat_timer_callback`: if the connection is
healthy and at least 16384 bytes of heap are free, build and send a
`PING` on the heartbeat namespace (a failed send is only logged, the
state is not changed); otherwise the tick does nothing.  Returns the
state afterwards and the frame written, if any. -/
def heartbeat_timer_callback (s : CtrlState) (free_heap : Nat)
    (env : SendEnv) : CtrlState × Option Frame :=
  if is_connection_healthy s then
    if free_heap < 16384 then (s, none)
    else
      let built := create_json_message free_heap s.request_id_counter
        "PING" 0 none
      let s' := { s with request_id_counter := built.2 }
      let sent := send_protobuf_message s' env (nsString .heartbeat) built.1
      (s', sent.2)
  else (s, none)

/-- `ChromecastController::send_virtual_connect`: build and send the
`CONNECT` message on the connection namespace; when (and only when) the
send reports success, mark the virtual connection established and set
state `CONNECTED`.  No inbound message is consulted.  Returns the boolean
result, the state afterwards, and the frame written, if any. -/
def send_virtual_connect (s : CtrlState) (free_heap : Nat) (env : SendEnv) :
    SendResult :=
  let built := create_json_message free_heap s.request_id_counter
    "CONNECT" 0 none
  let s1 := { s with request_id_counter := built.2 }
  let sent := send_protobuf_message s1 env (nsString .connection) built.1
  if sent.1 then
    ⟨true, { s1 with virtual_connection_established := true,
                     current_state := .CONNECTED }, sent.2⟩
  else ⟨false, s1, sent.2⟩

/-- `ChromecastController::stop_heartbeat`: stops the timer when it
exists. -/
def stop_heartbeat (s : CtrlState) : CtrlState :=
  if s.heartbeat_timer then { s with heartbeat_running := false } else s

/-- `ChromecastController::disconnect`: stop the heartbeat; if the virtual
connection is open, build and send `CLOSE` (ignoring the result) and
clear the flag; drop the receive task handle; destroy the TLS handle;
set state `DISCONNECTED`.  Returns the state afterwards and the `CLOSE`
frame written, if any. -/
def disconnect (s : CtrlState) (free_heap : Nat) (env : SendEnv) :
    CtrlState × Option Frame :=
  let s1 := stop_heartbeat s
  let closed :=
    if s1.virtual_connection_established then
      let built := create_json_message free_heap s1.request_id_counter
        "CLOSE" 0 none
      let sA := { s1 with request_id_counter := built.2 }
      let sent := send_protobuf_message sA env (nsString .connection) built.1
      ({ sA with virtual_connection_established := false }, sent.2)
    else (s1, (none : Option Frame))
  let s2 := closed.1
  let s3 :=
    if s2.receive_task_handle then { s2 with receive_task_handle := false }
    else s2
  let s4 := if s3.tls_handle then { s3 with tls_handle := false } else s3
  ({ s4 with current_state := .DISCONNECTED }, closed.2)

/- ------------------------------------------------------------------ -/
/- Inbound dispatch (`ChromecastController::handle_incoming_message`)  -/
/- ------------------------------------------------------------------ -/

/-- The observable effects of one `handle_incoming_message` call: the
`PONG` frame written in response to a heartbeat `PING` (if any), the
`VolumeInfo` handed to the volume callback (if any), and the
(namespace, payload) pair handed to the message observer callback
(if invoked). -/
structure HandleOutput where
  pongFrame : Option Frame
  volumeEvent : Option VolumeInfo
  messageEvent : Option (String × String)

/-- `ChromecastController::handle_incoming_message`, mirroring the
source's dispatch order.  Note the source compares the heartbeat
namespace with `strcmp` but the connection and receiver namespaces with
`==` on `const char*`, i.e. by pointer identity with the static
constants. -/
def handle_incoming_message (s : CtrlState) (free_heap : Nat) (env : SendEnv)
    (msg : CastMessage) : CtrlState × HandleOutput :=
  match msg.namespace_, msg.payload_utf8 with
  | some ns, some payload =>
    let event := some (ns.content, payload.text)
    if strcmpEq ns .heartbeat then
      match safe_json_parse free_heap payload 4096 with
      | some json =>
        match getObjectItem json "type" with
        | some (.jstr t) =>
          if t == "PING" then
            let built := create_json_message free_heap s.request_id_counter
              "PONG" 0 none
            let s' := { s with request_id_counter := built.2 }
            let sent := send_protobuf_message s' env (nsString .heartbeat)
              built.1
            (s', ⟨sent.2, none, event⟩)
          else (s, ⟨none, none, event⟩)
        | _ => (s, ⟨none, none, event⟩)
      | none => (s, ⟨none, none, event⟩)
    else if ptrEqNs ns .connection then (s, ⟨none, none, event⟩)
    else if ptrEqNs ns .receiver then
      (s, ⟨none, process_receiver_message free_heap payload, event⟩)
    else (s, ⟨none, none, event⟩)
  | _, _ => (s, ⟨none, none, none⟩)

/- ------------------------------------------------------------------ -/
/- Discovery (`ChromecastDiscovery`)                                   -/
/- ------------------------------------------------------------------ -/

/-- The address attached to an mDNS result: IPv4 (carrying the dotted-quad
string `esp_ip4addr_ntoa` renders for it) or any other family. -/
inductive MdnsAddr
  | v4 (rendered : String)
  | other
deriving DecidableEq, Repr

/-- One TXT record of an mDNS result; key and value pointers may be
NULL. -/
structure MdnsTxt where
  key : Option String
  value : Option String
deriving DecidableEq, Repr

/-- One `mdns_result_t` as `parse_device_info` reads it.  A NULL `addr`
list is `none`; `txt == NULL` and `txt_count == 0` are both the empty
list. -/
structure MdnsResult where
  addr : Option MdnsAddr
  port : Nat
  instance_name : Option String
  txt : List MdnsTxt
deriving DecidableEq, Repr

/-- `ChromecastDiscovery::DeviceInfo` (chromecast_discovery.h).  The
default constructor gives empty strings and port 8009. -/
structure DeviceInfo where
  name : String
  ip_address : String
  port : Nat
  instance_name : String
  model : String
  uuid : String
deriving DecidableEq, Repr

/-- `DeviceInfo::is_valid`: non-empty IP address and positive port. -/
def DeviceInfo.is_valid (d : DeviceInfo) : Bool :=
  !(d.ip_address == "") && decide (0 < d.port)

/-- `ChromecastDiscovery::extract_txt_value`: the value of the first TXT
record with a non-NULL key equal to `key` and a non-NULL value, else
`""`. -/
def extract_txt_value (r : MdnsResult) (key : String) : String :=
  match r.txt.find? fun t => t.key == some key && t.value.isSome with
  | some t => t.value.getD ""
  | none => ""

/-- `ChromecastDiscovery::parse_device_info`: reject a NULL or non-IPv4
address; render the IPv4 address; take the port from the result; default
the name to the instance name; fill model/uuid from the `md`/`id` TXT
keys; override the name with the `fn` TXT value when non-empty; accept
the descriptor iff `is_valid`.  Returns the parsed descriptor, or `none`
when the record is rejected. -/
def parse_device_info (r : MdnsResult) : Option DeviceInfo :=
  match r.addr with
  | none => none
  | some .other => none
  | some (.v4 rendered) =>
    let base : DeviceInfo :=
      { name := "", ip_address := rendered, port := r.port,
        instance_name := "", model := "", uuid := "" }
    let d1 :=
      match r.instance_name with
      | some inst => { base with instance_name := inst, name := inst }
      | none => base
    let d2 := { d1 with model := extract_txt_value r "md",
                        uuid := extract_txt_value r "id" }
    let fn := extract_txt_value r "fn"
    let d3 := if fn == "" then d2 else { d2 with name := fn }
    if d3.is_valid then some d3 else none

/-- The result-processing loop of
`ChromecastDiscovery::discover_devices_sync`: each record that
`parse_device_info` accepts is appended to the result vector, and the
device-found callback fires for exactly those appended descriptors, in
order. -/
def process_results (results : List MdnsResult) : List DeviceInfo :=
  results.filterMap parse_device_info

/- ------------------------------------------------------------------ -/
/- Theorems                                                            -/
/- ------------------------------------------------------------------ -/

/-- Every outcome `receive_task` counts as an error increments the
consecutive-error counter by one. -/
theorem recvStep_errors_of_isError (e : Nat) (o : RecvOutcome)
    (h : isErrorOutcome o = true) : (recvStep e o).errors = e + 1 := by
  cases o with
  | shortLenRead => rfl
  | header b0 b1 b2 b3 p =>
    by_cases h0 : beLen b0 b1 b2 b3 = 0
    · simp [recvStep, h0]
    · by_cases h1 : 2048 < beLen b0 b1 b2 b3
      · simp [recvStep, h0, h1]
      · cases p with
        | shortRead => simp [recvStep, h0, h1]
        | read u =>
          cases u with
          | none => simp [recvStep, h0, h1]
          | some m => simp [isErrorOutcome, h0, h1] at h

/-- Every successfully deserialized message resets the counter to 0. -/
theorem recvStep_errors_of_success (e : Nat) (o : RecvOutcome)
    (h : isErrorOutcome o = false) : (recvStep e o).errors = 0 := by
  cases o with
  | shortLenRead => simp [isErrorOutcome] at h
  | header b0 b1 b2 b3 p =>
    cases p with
    | shortRead => simp [isErrorOutcome] at h
    | read u =>
      cases u with
      | none => simp [isErrorOutcome] at h
      | some m =>
        simp only [isErrorOutcome, Bool.or_eq_false_iff,
          decide_eq_false_iff_not] at h
        simp [recvStep, h.1.1, h.1.2]

/-- One iteration either increments the counter or resets it to 0. -/
theorem recvStep_errors_cases (e : Nat) (o : RecvOutcome) :
    (recvStep e o).errors = e + 1 ∨ (recvStep e o).errors = 0 := by
  by_cases h : isErrorOutcome o = true
  · exact Or.inl (recvStep_errors_of_isError e o h)
  · exact Or.inr (recvStep_errors_of_success e o (by simpa using h))

/-- Once the error budget is exhausted the loop head exits immediately. -/
theorem recvRun_of_budget_exhausted (e : Nat)
    (h : MAX_CONSECUTIVE_ERRORS ≤ e) (es : List RecvOutcome) :
    recvRun e es = .errored := by
  cases es with
  | nil => simp [recvRun, h]
  | cons o os => simp [recvRun, h]

/-- The receive loop exits with the error budget exhausted exactly when
some prefix of the trace drives the consecutive-error counter to 5. -/
theorem recvRun_errored_iff (e : Nat) (he : e < MAX_CONSECUTIVE_ERRORS)
    (es : List RecvOutcome) :
    recvRun e es = .errored ↔
      ∃ p, p <+: es ∧ foldErrors e p = MAX_CONSECUTIVE_ERRORS := by
  induction es generalizing e with
  | nil =>
    have hne : ¬ MAX_CONSECUTIVE_ERRORS ≤ e := Nat.not_le.mpr he
    constructor
    · intro h
      simp [recvRun, hne] at h
    · rintro ⟨p, hp, hf⟩
      rw [List.prefix_nil] at hp
      subst hp
      simp only [foldErrors, List.foldl_nil] at hf
      omega
  | cons o os ih =>
    have hne : ¬ MAX_CONSECUTIVE_ERRORS ≤ e := Nat.not_le.mpr he
    rw [show recvRun e (o :: os)
        = if MAX_CONSECUTIVE_ERRORS ≤ e then .errored
          else recvRun (recvStep e o).errors os from rfl, if_neg hne]
    by_cases h5 : (recvStep e o).errors < MAX_CONSECUTIVE_ERRORS
    · rw [ih _ h5]
      constructor
      · rintro ⟨p, hp, hf⟩
        refine ⟨o :: p, List.cons_prefix_cons.mpr ⟨rfl, hp⟩, ?_⟩
        simpa [foldErrors] using hf
      · rintro ⟨p, hp, hf⟩
        cases p with
        | nil =>
          exfalso
          simp only [foldErrors, List.foldl_nil] at hf
          omega
        | cons a p' =>
          obtain ⟨ha, hp'⟩ := List.cons_prefix_cons.mp hp
          subst ha
          refine ⟨p', hp', ?_⟩
          simpa [foldErrors] using hf
    · have h5' : MAX_CONSECUTIVE_ERRORS ≤ (recvStep e o).errors :=
        Nat.not_lt.mp h5
      have he5 : (recvStep e o).errors = MAX_CONSECUTIVE_ERRORS := by
        rcases recvStep_errors_cases e o with h | h <;> omega
      constructor
      · intro _
        refine ⟨[o], ⟨os, rfl⟩, ?_⟩
        simpa [foldErrors] using he5
      · intro _
        exact recvRun_of_budget_exhausted _ h5' os

/-- A concrete successful iteration outcome: declared length 1, full
payload read, unpack succeeds. -/
def okOutcome : RecvOutcome :=
  .header 0 0 0 1 (.read (some ⟨none, none⟩))

/-- The trace of 4 failures, 1 success, 4 failures from the claim. -/
def traceC1 : List RecvOutcome :=
  List.replicate 4 .shortLenRead ++ okOutcome :: List.replicate 4 .shortLenRead

/-- C1: in `receive_task`, every failed attempt (incomplete length read,
zero or oversized declared length, incomplete payload read, unpack
failure) increments the consecutive-error counter, every successfully
deserialized message resets it to 0, the loop exits with state
`ERROR_STATE` exactly when the counter reaches 5 consecutive errors, and
the trace 4 failures / 1 success / 4 failures does not terminate the
loop. -/
theorem receive_loop_error_budget :
    (∀ e o, isErrorOutcome o = true → (recvStep e o).errors = e + 1) ∧
    (∀ e o, isErrorOutcome o = false → (recvStep e o).errors = 0) ∧
    (∀ es, receive_task_final_state .CONNECTED es = .ERROR_STATE ↔
      ∃ p, p <+: es ∧ foldErrors 0 p = MAX_CONSECUTIVE_ERRORS) ∧
    recvRun 0 traceC1 = .running 4 := by
  refine ⟨recvStep_errors_of_isError, recvStep_errors_of_success, ?_, by decide⟩
  intro es
  rw [← recvRun_errored_iff 0 (by decide) es]
  unfold receive_task_final_state
  cases h : recvRun 0 es <;> simp [h]

/-- Witness for C1 at concrete inputs: a short length read at counter 3
increments to 4, a successful message at counter 3 resets to 0, and a
trace of 5 consecutive short reads ends the loop in `ERROR_STATE` while
the claim's 4+1+4 trace keeps it running. -/
theorem receive_loop_error_budget_witness :
    (recvStep 3 .shortLenRead).errors = 4 ∧
    (recvStep 3 okOutcome).errors = 0 ∧
    (receive_task_final_state .CONNECTED
        (List.replicate 5 .shortLenRead) = .ERROR_STATE ↔
      ∃ p, p <+: List.replicate 5 RecvOutcome.shortLenRead ∧
        foldErrors 0 p = MAX_CONSECUTIVE_ERRORS) ∧
    recvRun 0 traceC1 = .running 4 :=
  ⟨receive_loop_error_budget.1 3 .shortLenRead rfl,
   receive_loop_error_budget.2.1 3 okOutcome rfl,
   receive_loop_error_budget.2.2.1 (List.replicate 5 .shortLenRead),
   receive_loop_error_budget.2.2.2⟩

/-- C3 counterexample: the code's check is `message_length > 2048`, so a
frame with declared length exactly 2048 — the bytes `00 00 08 00` — is
NOT treated as a violation: its payload is read (and on successful
unpack the error counter resets to 0), contradicting the claim that the
length must be strictly below the 2048-byte maximum for the payload to
be read. -/
theorem frame_length_boundary_counterexample :
    beLen 0 0 8 0 = 2048 ∧
    (recvStep 0 (.header 0 0 8 0
      (.read (some ⟨none, none⟩)))).payloadReadAttempted = true ∧
    (recvStep 0 (.header 0 0 8 0 (.read (some ⟨none, none⟩)))).errors = 0 :=
  ⟨by decide, rfl, rfl⟩

/-- C3 (amended): the declared length must be greater than 0 and at most
2048; a frame whose declared length is 0 or exceeds 2048 is never read
as payload — the error counter increments, no message is dispatched,
and (while the budget is not exhausted) the loop simply continues with
the rest of the trace. -/
theorem frame_length_validation (e : Nat) (b0 b1 b2 b3 : Fin 256)
    (p : PayloadOutcome) (rest : List RecvOutcome)
    (hviol : beLen b0 b1 b2 b3 = 0 ∨ 2048 < beLen b0 b1 b2 b3) :
    (recvStep e (.header b0 b1 b2 b3 p)).payloadReadAttempted = false ∧
    (recvStep e (.header b0 b1 b2 b3 p)).errors = e + 1 ∧
    (recvStep e (.header b0 b1 b2 b3 p)).handled = none ∧
    (e < MAX_CONSECUTIVE_ERRORS →
      recvRun e (.header b0 b1 b2 b3 p :: rest) = recvRun (e + 1) rest) := by
  have hstep : recvStep e (.header b0 b1 b2 b3 p) = ⟨e + 1, false, none⟩ := by
    rcases hviol with h | h
    · simp [recvStep, h]
    · have h0 : ¬ beLen b0 b1 b2 b3 = 0 := by omega
      simp [recvStep, h0, h]
  refine ⟨by rw [hstep], by rw [hstep], by rw [hstep], fun he => ?_⟩
  have hne : ¬ MAX_CONSECUTIVE_ERRORS ≤ e := Nat.not_le.mpr he
  rw [show recvRun e (RecvOutcome.header b0 b1 b2 b3 p :: rest)
      = if MAX_CONSECUTIVE_ERRORS ≤ e then .errored
        else recvRun (recvStep e (.header b0 b1 b2 b3 p)).errors rest from rfl,
    if_neg hne, hstep]

/-- Witness for the amended C3 at a concrete input: declared length 2049
(bytes `00 00 08 01`) with the error counter at 0. -/
theorem frame_length_validation_witness :
    (beLen 0 0 8 1 = 0 ∨ 2048 < beLen 0 0 8 1) ∧
    ((recvStep 0 (.header 0 0 8 1
        PayloadOutcome.shortRead)).payloadReadAttempted = false ∧
     (recvStep 0 (.header 0 0 8 1 PayloadOutcome.shortRead)).errors = 0 + 1 ∧
     (recvStep 0 (.header 0 0 8 1 PayloadOutcome.shortRead)).handled = none ∧
     (0 < MAX_CONSECUTIVE_ERRORS →
       recvRun 0 [RecvOutcome.header 0 0 8 1 PayloadOutcome.shortRead]
         = recvRun (0 + 1) [])) :=
  ⟨Or.inr (by decide),
   frame_length_validation 0 0 0 8 1 .shortRead [] (Or.inr (by decide))⟩

/-- A connected, fully set-up controller state, for concrete witnesses. -/
def connectedState : CtrlState :=
  { tls_handle := true, heartbeat_timer := true, heartbeat_running := true,
    receive_task_handle := true, current_state := .CONNECTED,
    request_id_counter := 7, virtual_connection_established := true }

/-- A send environment where `malloc` and the TLS write both succeed. -/
def envOk : SendEnv := ⟨true, true⟩

/-- C4 counterexample: with only 100 bytes of free heap, `get_status` on a
connected session is NOT skipped — `create_json_message` falls back to
the `"{}"` payload, which is still framed and written on the receiver
namespace, and `get_status` returns true. -/
theorem low_memory_get_status_counterexample :
    get_status connectedState 100 envOk
      = ⟨true, connectedState, some ⟨nsString .receiver, .jobj []⟩⟩ := rfl

/-- C4 (amended): with free heap below its 8192-byte threshold,
`set_volume` returns false with no frame written and no state change;
with free heap below its 16384-byte threshold the heartbeat tick writes
nothing and changes nothing.  `get_status`, however, performs no memory
check of its own: on a connected session with a live TLS handle and a
successful buffer allocation it still writes a frame whose payload is
the JSON builder's `"{}"` low-memory fallback, and returns the send
result. -/
theorem low_memory_skips :
    (∀ s fh env level muted, fh < 8192 →
      set_volume s fh env level muted = ⟨false, s, none⟩) ∧
    (∀ s fh env, fh < 16384 →
      heartbeat_timer_callback s fh env = (s, none)) ∧
    (∀ s fh env, fh < 8192 → is_connected s = true → s.tls_handle = true →
      env.mallocOk = true →
      get_status s fh env
        = ⟨env.writeOk, s, some ⟨nsString .receiver, .jobj []⟩⟩) := by
  refine ⟨?_, ?_, ?_⟩
  · intro s fh env level muted hfh
    by_cases hc : is_connected s = false
    · simp [set_volume, hc]
    · simp [set_volume, hc, hfh]
  · intro s fh env hfh
    by_cases hh : is_connection_healthy s
    · simp [heartbeat_timer_callback, hh, hfh]
    · simp [heartbeat_timer_callback, hh]
  · intro s fh env hfh hconn htls hmal
    obtain ⟨tls, tmr, run, task, cs, ctr, vce⟩ := s
    simp only [CtrlState.tls_handle] at htls
    subst htls
    simp [get_status, hconn, create_json_message, hfh,
      send_protobuf_message, hmal]

/-- Witness for the amended C4 at concrete inputs, all with 100 bytes of
free heap: `set_volume` and the heartbeat tick skip without writing;
`get_status` still writes the fallback frame. -/
theorem low_memory_skips_witness :
    set_volume connectedState 100 envOk (1/2) false
      = ⟨false, connectedState, none⟩ ∧
    heartbeat_timer_callback connectedState 100 envOk
      = (connectedState, none) ∧
    get_status connectedState 100 envOk
      = ⟨envOk.writeOk, connectedState, some ⟨nsString .receiver, .jobj []⟩⟩ :=
  ⟨low_memory_skips.1 connectedState 100 envOk (1/2) false (by decide),
   low_memory_skips.2.1 connectedState 100 envOk (by decide),
   low_memory_skips.2.2 connectedState 100 envOk (by decide) rfl rfl rfl⟩

/-- Any frame `send_protobuf_message` writes carries exactly the namespace
and payload it was given. -/
theorem send_protobuf_message_frame (s : CtrlState) (env : SendEnv)
    (ns : String) (payload : JVal) (fr : Frame)
    (h : (send_protobuf_message s env ns payload).2 = some fr) :
    fr.ns = ns ∧ fr.payload = payload := by
  unfold send_protobuf_message at h
  split at h
  · simp at h
  · split at h
    · simp at h
    · simp only [Option.some.injEq] at h
      rw [← h]
      exact ⟨rfl, rfl⟩

/-- C5: whenever `send_virtual_connect`'s `CONNECT` send on the connection
namespace reports success, the state immediately afterwards is
`CONNECTED` with the virtual connection marked established.  The
function consumes no inbound message at all, so no acknowledgement or
reply from the peer is involved in the transition. -/
theorem connect_marks_connected (s : CtrlState) (fh : Nat) (env : SendEnv)
    (h : (send_virtual_connect s fh env).ret = true) :
    (send_virtual_connect s fh env).state.current_state = .CONNECTED ∧
    (send_virtual_connect s fh env).state.virtual_connection_established
      = true ∧
    ∀ fr, (send_virtual_connect s fh env).frame = some fr →
      fr.ns = nsString .connection := by
  simp only [send_virtual_connect] at h ⊢
  split at h
  next hs =>
    simp only [hs, if_true]
    exact ⟨trivial, trivial, fun fr hfr =>
      (send_protobuf_message_frame _ _ _ _ fr hfr).1⟩
  next hs => simp at h

/-- Witness for C5: from a `CONNECTING` state with a live TLS handle and a
successful write, `send_virtual_connect` succeeds and the state is
`CONNECTED` with the virtual connection established. -/
theorem connect_marks_connected_witness :
    (send_virtual_connect ⟨true, true, false, false, .CONNECTING, 1, false⟩
        100000 envOk).state.current_state = .CONNECTED ∧
    (send_virtual_connect ⟨true, true, false, false, .CONNECTING, 1, false⟩
        100000 envOk).state.virtual_connection_established = true ∧
    ∀ fr, (send_virtual_connect ⟨true, true, false, false, .CONNECTING, 1,
        false⟩ 100000 envOk).frame = some fr →
      fr.ns = nsString .connection :=
  connect_marks_connected ⟨true, true, false, false, .CONNECTING, 1, false⟩
    100000 envOk rfl

/-- C6: `disconnect` is idempotent: a second call in a row returns the
exact same state and writes nothing (in particular no `CLOSE` frame),
and after one call the heartbeat is stopped, the virtual connection is
closed, the TLS handle is released, and the state is `DISCONNECTED`.
(The hypothesis — the heartbeat can only be running if the timer was
created — holds of every state the controller constructs, since
`start_heartbeat` is guarded on the timer handle.) -/
theorem disconnect_idempotent (s : CtrlState) (fh fh2 : Nat)
    (env env2 : SendEnv)
    (hhb : s.heartbeat_running = true → s.heartbeat_timer = true) :
    disconnect (disconnect s fh env).1 fh2 env2
      = ((disconnect s fh env).1, none) ∧
    (disconnect s fh env).1.heartbeat_running = false ∧
    (disconnect s fh env).1.virtual_connection_established = false ∧
    (disconnect s fh env).1.tls_handle = false ∧
    (disconnect s fh env).1.receive_task_handle = false ∧
    (disconnect s fh env).1.current_state = .DISCONNECTED := by
  obtain ⟨tls, tmr, run, task, cs, ctr, vce⟩ := s
  cases tmr <;> cases run <;> cases vce <;> cases task <;> cases tls <;>
    simp_all [disconnect, stop_heartbeat, create_json_message,
      send_protobuf_message]

/-- Witness for C6 from the fully connected state. -/
theorem disconnect_idempotent_witness :
    disconnect (disconnect connectedState 100000 envOk).1 100000 envOk
      = ((disconnect connectedState 100000 envOk).1, none) ∧
    (disconnect connectedState 100000 envOk).1.heartbeat_running = false ∧
    (disconnect connectedState 100000
        envOk).1.virtual_connection_established = false ∧
    (disconnect connectedState 100000 envOk).1.tls_handle = false ∧
    (disconnect connectedState 100000 envOk).1.receive_task_handle = false ∧
    (disconnect connectedState 100000 envOk).1.current_state
      = .DISCONNECTED :=
  disconnect_idempotent connectedState 100000 100000 envOk envOk
    (fun _ => rfl)

/-- C7: a heartbeat tick on an unhealthy session (not `CONNECTED`, or no
TLS handle, or no virtual connection) writes nothing and changes no
state; and every state `disconnect` leaves behind is unhealthy, so in
particular every tick after `disconnect` is such a no-op. -/
theorem heartbeat_tick_noop_when_unhealthy :
    (∀ s fh env, is_connection_healthy s = false →
      heartbeat_timer_callback s fh env = (s, none)) ∧
    (∀ s fh env, is_connection_healthy (disconnect s fh env).1 = false) := by
  constructor
  · intro s fh env h
    simp [heartbeat_timer_callback, h]
  · intro s fh env
    simp [is_connection_healthy, disconnect]

/-- Witness for C7: a tick on the state `disconnect` leaves behind (which
is unhealthy) is a no-op. -/
theorem heartbeat_tick_noop_witness :
    is_connection_healthy (disconnect connectedState 100000 envOk).1
      = false ∧
    heartbeat_timer_callback (disconnect connectedState 100000 envOk).1
        100000 envOk
      = ((disconnect connectedState 100000 envOk).1, none) :=
  ⟨heartbeat_tick_noop_when_unhealthy.2 connectedState 100000 envOk,
   heartbeat_tick_noop_when_unhealthy.1 _ 100000 envOk
     (heartbeat_tick_noop_when_unhealthy.2 connectedState 100000 envOk)⟩

/-- `parse_device_info` either rejects the record, or the record has an
IPv4 address and the accepted descriptor carries its rendered address,
the record's port, and passes `is_valid`. -/
theorem parse_device_info_char (r : MdnsResult) :
    parse_device_info r = none ∨
    ∃ rendered d, r.addr = some (.v4 rendered) ∧
      parse_device_info r = some d ∧ d.ip_address = rendered ∧
      d.port = r.port ∧ d.is_valid = true := by
  unfold parse_device_info
  cases ha : r.addr with
  | none => exact Or.inl rfl
  | some a =>
    cases a with
    | other => exact Or.inl rfl
    | v4 rendered =>
      simp only
      cases r.instance_name <;>
        all_goals
          (by_cases hfn : (extract_txt_value r "fn" == "") = true
           · rw [if_pos hfn]
             split
             next hv => exact Or.inr ⟨rendered, _, rfl, rfl, rfl, rfl, hv⟩
             next => exact Or.inl rfl
           · rw [if_neg hfn]
             split
             next hv => exact Or.inr ⟨rendered, _, rfl, rfl, rfl, rfl, hv⟩
             next => exact Or.inl rfl)

/-- Every descriptor `parse_device_info` accepts has a non-empty IP
address and a positive port. -/
theorem parse_device_info_valid (r : MdnsResult) (d : DeviceInfo)
    (h : parse_device_info r = some d) :
    d.ip_address ≠ "" ∧ 0 < d.port := by
  rcases parse_device_info_char r with hn | ⟨rendered, d', _, hsome, _, _, hv⟩
  · rw [hn] at h
    exact absurd h (by simp)
  · rw [hsome] at h
    simp only [Option.some.injEq] at h
    subst h
    simpa [DeviceInfo.is_valid] using hv

/-- C8: a resolved mDNS record with a missing address, a non-IPv4 address,
an empty rendered IP address, or port 0 is rejected by
`parse_device_info`, hence never appended to the result list and never
fires the device-found callback; and every descriptor a discovery pass
reports has a non-empty `ip_address` and `port > 0`. -/
theorem discovery_validity_filter :
    (∀ r : MdnsResult,
      (r.addr = none ∨ r.addr = some .other ∨ r.addr = some (.v4 "") ∨
        r.port = 0) →
      parse_device_info r = none) ∧
    (∀ (results : List MdnsResult) (d : DeviceInfo),
      d ∈ process_results results → d.ip_address ≠ "" ∧ 0 < d.port) := by
  constructor
  · intro r h
    rcases parse_device_info_char r with hn | ⟨rendered, d, haddr, hsome, hip, hport, hv⟩
    · exact hn
    · exfalso
      rcases h with h | h | h | h
      · rw [h] at haddr
        exact absurd haddr (by simp)
      · rw [h] at haddr
        simp at haddr
      · rw [h] at haddr
        simp only [Option.some.injEq, MdnsAddr.v4.injEq] at haddr
        rw [← haddr] at hip
        simp [DeviceInfo.is_valid, hip] at hv
      · rw [h] at hport
        simp [DeviceInfo.is_valid, hport] at hv
  · intro results d hd
    rw [process_results, List.mem_filterMap] at hd
    obtain ⟨r, _, hr⟩ := hd
    exact parse_device_info_valid r d hr

/-- Witness for C8: a non-IPv4 record and a zero-port record are both
rejected, and the one descriptor reported from a concrete pass has a
non-empty address and positive port. -/
theorem discovery_validity_filter_witness :
    parse_device_info ⟨some .other, 8009, some "cast-1", []⟩ = none ∧
    parse_device_info ⟨some (.v4 "192.168.1.10"), 0, some "cast-1", []⟩
      = none ∧
    ((⟨"cast-1", "192.168.1.10", 8009, "cast-1", "", ""⟩ : DeviceInfo).ip_address
        ≠ "" ∧
      0 < (⟨"cast-1", "192.168.1.10", 8009, "cast-1", "", ""⟩ : DeviceInfo).port) :=
  ⟨discovery_validity_filter.1 ⟨some .other, 8009, some "cast-1", []⟩
      (Or.inr (Or.inl rfl)),
   discovery_validity_filter.1 ⟨some (.v4 "192.168.1.10"), 0, some "cast-1", []⟩
      (Or.inr (Or.inr (Or.inr rfl))),
   discovery_validity_filter.2
     [⟨some (.v4 "192.168.1.10"), 8009, some "cast-1", []⟩]
     ⟨"cast-1", "192.168.1.10", 8009, "cast-1", "", ""⟩ (by decide)⟩

/-- C9: on a connected session with sufficient memory headroom (and a
live TLS handle and successful buffer allocation, without which nothing
is written at all), `set_volume level muted` writes exactly one frame on
the receiver namespace whose payload carries `level` clamped to [0, 1]
and the `muted` argument verbatim. -/
theorem set_volume_clamps (s : CtrlState) (fh : Nat) (env : SendEnv)
    (level : ℚ) (muted : Bool)
    (hconn : is_connected s = true) (hfh : 8192 ≤ fh)
    (htls : s.tls_handle = true) (hmal : env.mallocOk = true) :
    (set_volume s fh env level muted).frame =
      some ⟨nsString .receiver,
        .jobj [("type", .jstr "SET_VOLUME"),
               ("requestId", .jnum (s.request_id_counter : ℚ)),
               ("volume", .jobj [("level", .jnum (clampLevel level)),
                                 ("muted", .jbool muted)])]⟩ ∧
    (set_volume s fh env level muted).ret = env.writeOk := by
  have hfh' : ¬ fh < 8192 := Nat.not_lt.mpr hfh
  simp [set_volume, hconn, hfh', create_json_message,
    send_protobuf_message, htls, hmal]

/-- Witness for C9 at the claim's concrete inputs: `set_volume 1.7 true`
encodes level 1 (the clamp of 1.7) and muted true; the clamp of -0.5 is
0. -/
theorem set_volume_clamps_witness :
    clampLevel (17 / 10) = 1 ∧ clampLevel (-(1 / 2)) = 0 ∧
    ((set_volume connectedState 100000 envOk (17 / 10) true).frame =
      some ⟨nsString .receiver,
        .jobj [("type", .jstr "SET_VOLUME"),
               ("requestId", .jnum (connectedState.request_id_counter : ℚ)),
               ("volume", .jobj [("level", .jnum (clampLevel (17 / 10))),
                                 ("muted", .jbool true)])]⟩ ∧
     (set_volume connectedState 100000 envOk (17 / 10) true).ret
       = envOk.writeOk) :=
  ⟨by rw [clampLevel, min_eq_left (by norm_num), max_eq_right (by norm_num)],
   by rw [clampLevel, min_eq_right (by norm_num), max_eq_left (by norm_num)],
   set_volume_clamps connectedState 100000 envOk (17 / 10) true
     (by decide) (by decide) rfl rfl⟩

/-- C10: a deserialized message whose namespace or payload pointer is
NULL is dropped whole — no state change, no dispatch, no PONG, no
volume event, and no message-observer invocation; and conversely, any
message-observer invocation carries the (non-NULL) namespace and payload
strings of the message. -/
theorem null_field_message_dropped :
    (∀ s fh env msg, (msg.namespace_ = none ∨ msg.payload_utf8 = none) →
      handle_incoming_message s fh env msg = (s, ⟨none, none, none⟩)) ∧
    (∀ s fh env msg ev,
      (handle_incoming_message s fh env msg).2.messageEvent = some ev →
      ∃ ns payload, msg.namespace_ = some ns ∧
        msg.payload_utf8 = some payload ∧
        ev = (ns.content, payload.text)) := by
  constructor
  · intro s fh env msg h
    obtain ⟨nso, po⟩ := msg
    rcases h with h | h <;> simp only at h <;> subst h
    · rfl
    · cases nso <;> rfl
  · intro s fh env msg ev h
    obtain ⟨nso, po⟩ := msg
    cases nso with
    | none => simp [handle_incoming_message] at h
    | some ns =>
      cases po with
      | none => simp [handle_incoming_message] at h
      | some payload =>
        refine ⟨ns, payload, rfl, rfl, ?_⟩
        have : (handle_incoming_message s fh env
            ⟨some ns, some payload⟩).2.messageEvent
            = some (ns.content, payload.text) := by
          unfold handle_incoming_message
          simp only
          repeat' split
          all_goals rfl
        rw [this] at h
        exact (Option.some.injEq _ _ ▸ h).symm

/-- Witness for C10: a message with both pointers NULL is dropped whole,
and a delivered message-observer event carries the message's namespace
content and payload text. -/
theorem null_field_message_dropped_witness :
    handle_incoming_message connectedState 100000 envOk ⟨none, none⟩
      = (connectedState, ⟨none, none, none⟩) ∧
    ∃ ns payload,
      (⟨some ⟨"x", none⟩, some ⟨"\x7b\x7d", some (.jobj [])⟩⟩
          : CastMessage).namespace_ = some ns ∧
      (⟨some ⟨"x", none⟩, some ⟨"\x7b\x7d", some (.jobj [])⟩⟩
          : CastMessage).payload_utf8 = some payload ∧
      (("x", "\x7b\x7d") : String × String) = (ns.content, payload.text) :=
  ⟨null_field_message_dropped.1 connectedState 100000 envOk ⟨none, none⟩
     (Or.inl rfl),
   null_field_message_dropped.2 connectedState 100000 envOk
     ⟨some ⟨"x", none⟩, some ⟨"\x7b\x7d", some (.jobj [])⟩⟩
     ("x", "\x7b\x7d") rfl⟩

/-- For every message whose namespace string is a runtime allocation (as
every message produced by protobuf unpack is — its strings are fresh
heap allocations, never aliases of the controller's static `constexpr`
constants), `handle_incoming_message` never produces a volume event:
the receiver-namespace branch is guarded by a `const char*` pointer
comparison that is false for such messages. -/
theorem wire_message_volume_event_none (s : CtrlState) (fh : Nat)
    (env : SendEnv) (msg : CastMessage)
    (h : ∀ ns, msg.namespace_ = some ns → ns.static = none) :
    (handle_incoming_message s fh env msg).2.volumeEvent = none := by
  obtain ⟨nso, po⟩ := msg
  cases nso with
  | none => cases po <;> rfl
  | some ns =>
    cases po with
    | none => rfl
    | some payload =>
      have hst : ns.static = none := h ns rfl
      unfold handle_incoming_message
      simp only
      repeat' split
      all_goals first
        | rfl
        | simp_all [ptrEqNs]

/-- The parsed JSON of a `RECEIVER_STATUS` payload carrying volume level
0.42 (= 21/50) and muted false. -/
def statusJsonC2 : JVal :=
  .jobj [("type", .jstr "RECEIVER_STATUS"), ("requestId", .jnum 1),
         ("status", .jobj [("volume",
            .jobj [("level", .jnum (21 / 50)), ("muted", .jbool false)])])]

/-- The raw text of that payload. -/
def statusTextC2 : String :=
  "\x7b\"type\":\"RECEIVER_STATUS\",\"requestId\":1,\"status\":\x7b\"volume\":\x7b\"level\":0.42,\"muted\":false\x7d\x7d\x7d"

/-- That payload as a parsed document. -/
def payloadC2 : JDoc := ⟨statusTextC2, some statusJsonC2⟩

/-- A receiver-namespace message as the receive loop actually sees it
after protobuf unpacking: the namespace string's content is the receiver
URN, but the pointer is a fresh heap allocation (`static = none`), so it
is never pointer-equal to the controller's static constant. -/
def msgC2 : CastMessage := ⟨some ⟨nsString .receiver, none⟩, some payloadC2⟩

/-- C2 (bug evidence): on a received receiver-namespace `RECEIVER_STATUS`
message with a volume object, the volume callback does NOT fire — the
dispatch compares the receiver namespace by `const char*` pointer
identity, so the message falls through to the unhandled-namespace branch
(only the raw message observer still fires) — even though
`process_receiver_message` applied to the very same payload would
extract `VolumeInfo` level 0.42, muted false and fire the callback. -/
theorem receiver_status_dispatch_dead :
    (handle_incoming_message connectedState 100000 envOk
      msgC2).2.volumeEvent = none ∧
    (handle_incoming_message connectedState 100000 envOk
      msgC2).2.messageEvent = some (nsString .receiver, statusTextC2) ∧
    process_receiver_message 100000 payloadC2 = some ⟨21 / 50, false⟩ :=
  ⟨rfl, rfl, rfl⟩

end ESPCaster
